import Mathlib

/-!
Verification of the KnotX Casper gateway contract
(`contracts/casper/contract/src/main.rs`) against its design document.

The contract is embedded shallowly: the persistent named keys and
dictionaries become a `GatewayState` record, each entry point becomes a
pure function from state and arguments to an outcome paired with the
storage contents at the moment the call exits (including aborts), and
the host-supplied primitives (blake2b, secp256k1 signature verification,
the downstream `call_contract` into the receiver) are abstracted as a
`Host` record of oracle functions.  Byte strings are `List Nat` with
each element a `u8` value.
-/

namespace KnotX

/-- Byte strings (`Vec<u8>` / `Bytes` in the source). -/
abbrev Bytes := List Nat

/-- Casper chain id, `const CASPER_CHAIN_ID: u32 = 3`. -/
def CASPER_CHAIN_ID : Nat := 3

/-- The contract's error enum (`#[repr(u16)] enum Error` in `main.rs`). -/
inductive Error
  | UnsupportedChain
  | AlreadyExecuted
  | InvalidReceiver
  | MissingKey
  | InvalidSignature
deriving DecidableEq, Repr

/-- The `u16` discriminant of each error, as declared in the source. -/
def Error.code : Error → Nat
  | .UnsupportedChain => 1
  | .AlreadyExecuted => 2
  | .InvalidReceiver => 3
  | .MissingKey => 4
  | .InvalidSignature => 5

/-- Big-endian bytes of a `u32` (`u32::to_be_bytes`). -/
def u32_to_be_bytes (n : Nat) : Bytes :=
  [n / 2 ^ 24 % 256, n / 2 ^ 16 % 256, n / 2 ^ 8 % 256, n % 256]

/-- Big-endian bytes of a `u64` (`u64::to_be_bytes`). -/
def u64_to_be_bytes (n : Nat) : Bytes :=
  [n / 2 ^ 56 % 256, n / 2 ^ 48 % 256, n / 2 ^ 40 % 256, n / 2 ^ 32 % 256,
   n / 2 ^ 24 % 256, n / 2 ^ 16 % 256, n / 2 ^ 8 % 256, n % 256]

/-- Canonical message encoding, `fn build_message_bytes` in `main.rs`:
successive `extend_from_slice` calls on an initially empty vector. -/
def build_message_bytes (src_chain_id dst_chain_id : Nat)
    (src_gateway receiver : Bytes) (nonce : Nat) (payload : Bytes) : Bytes :=
  u32_to_be_bytes src_chain_id ++ u32_to_be_bytes dst_chain_id ++
    src_gateway ++ receiver ++ u64_to_be_bytes nonce ++ payload

/-- The lowercase hex alphabet `b"0123456789abcdef"` from `fn to_hex`. -/
def HEX_DIGITS : List Char :=
  "0123456789abcdef".toList

/-- Lowercase hex rendering of a byte string, `fn to_hex` in `main.rs`:
for each byte push `HEX[b >> 4]` then `HEX[b & 0xf]`.  For `u8` values the
indices are below 16, so the `getD` default is never consulted. -/
def to_hex (bytes : Bytes) : String :=
  String.mk (bytes.foldr
    (fun b acc => HEX_DIGITS.getD (b / 16 % 16) '0' :: HEX_DIGITS.getD (b % 16) '0' :: acc)
    [])

/-- Oracles for the host environment and external crypto libraries:
residual validity of key/signature material beyond the length checks
(curve-point and scalar validity inside `k256`), the
`verify_signature(message, sig, pubkey)` host function, the `blake2b`
host hash, and success or failure of the dispatcher's
`runtime::call_contract(receiver, "on_call", ...)`. -/
structure Host where
  pubkeyWellFormed : Bytes → Bool
  sigWellFormed : Bytes → Bool
  verifySig : Bytes → Bytes → Bytes → Bool
  blake2b : Bytes → Bytes
  dispatch : Nat → Bytes → Bytes → Bytes → Bool

/-- Whether `k256::ecdsa::VerifyingKey::try_from(&[u8])` (SEC1 parsing, used
by `PublicKey::Secp256k1(bytes.try_into().unwrap())`) succeeds: the input
must be a SEC1 encoding — 33 bytes compressed or 65 bytes uncompressed —
and a valid curve point (the residual `Host` oracle). -/
def pubkeyParseOk (h : Host) (b : Bytes) : Bool :=
  (b.length == 33 || b.length == 65) && h.pubkeyWellFormed b

/-- Whether `k256::ecdsa::Signature::try_from(&[u8])` (used by
`Signature::Secp256k1(signature.try_into().unwrap())`) succeeds: the input
must be exactly 64 bytes and hold valid scalars (the residual oracle). -/
def sigParseOk (h : Host) (b : Bytes) : Bool :=
  (b.length == 64) && h.sigWellFormed b

/-- Dictionary (`storage::dictionary_get`) lookup on an association list. -/
def dictGet {α β : Type} [DecidableEq α] (d : List (α × β)) (k : α) : Option β :=
  (d.find? (fun p => decide (p.1 = k))).map (·.2)

/-- Dictionary (`storage::dictionary_put`) overwrite on an association list;
the newest binding shadows older ones under `dictGet`. -/
def dictPut {α β : Type} (d : List (α × β)) (k : α) (v : β) : List (α × β) :=
  (k, v) :: d

/-- The gateway's persistent storage: the named keys `nonce` and
`relayer_pubkey` plus the dictionaries `supported_chains` (keyed by
`chain_id.to_string()`), `executed_messages` and `messages` (keyed by the
hex blake2b digest of the canonical bytes). -/
structure GatewayState where
  nonce : Nat
  relayer_pubkey : Bytes
  supported_chains : List (String × Bool)
  executed_messages : List (String × Bool)
  messages : List (String × Bytes)
deriving DecidableEq, Repr

/-- Storage key of a message, `fn message_key`: hex of its blake2b digest. -/
def message_key (h : Host) (message : Bytes) : String :=
  to_hex (h.blake2b message)

/-- The installer, `fn call` in `main.rs`: reverts with `InvalidSignature`
unless the supplied relayer public key is exactly 64 bytes, otherwise
allocates the state with nonce 0 and empty dictionaries. -/
def install (relayer_pubkey : Bytes) : Except Error GatewayState :=
  if relayer_pubkey.length ≠ 64 then
    .error .InvalidSignature
  else
    .ok { nonce := 0
          relayer_pubkey := relayer_pubkey
          supported_chains := []
          executed_messages := []
          messages := [] }

/-- Entry point `set_supported_chain`: unconditionally overwrite the flag
stored under `chain_id.to_string()`. -/
def set_supported_chain (s : GatewayState) (chain_id : Nat) (supported : Bool) :
    GatewayState :=
  { s with supported_chains := dictPut s.supported_chains (toString chain_id) supported }

/-- Entry point `send_message`: revert with `UnsupportedChain` unless the
destination's stored flag is `Some(true)`; otherwise read the nonce, write
back `nonce + 1`, build the canonical bytes with the caller's identity and
the pre-increment nonce, archive them under their digest key, and return
them.  The second component is the storage contents when the call exits. -/
def send_message (h : Host) (caller : Bytes) (s : GatewayState)
    (dst_chain_id : Nat) (receiver payload : Bytes) :
    Except Error Bytes × GatewayState :=
  if dictGet s.supported_chains (toString dst_chain_id) ≠ some true then
    (.error .UnsupportedChain, s)
  else
    let nonce := s.nonce
    let s1 := { s with nonce := nonce + 1 }
    let message_bytes :=
      build_message_bytes CASPER_CHAIN_ID dst_chain_id caller receiver nonce payload
    let key := message_key h message_bytes
    let s2 := { s1 with messages := dictPut s1.messages key message_bytes }
    (.ok message_bytes, s2)

/-- Result of `fn verify_relayer_signature`: `trap` models the `unwrap()`
panics on the two `try_into()` conversions, `invalid` the
`unwrap_or_revert_with(Error::InvalidSignature)` on a failed check. -/
inductive VerifyResult
  | ok
  | trap
  | invalid
deriving DecidableEq, Repr

/-- `fn verify_relayer_signature`: read the stored key, convert it with
`try_into().unwrap()` into a secp256k1 public key, convert the presented
signature with `try_into().unwrap()`, then run `verify_signature` over the
message bytes. -/
def verify_relayer_signature (h : Host) (pubkey_bytes message signature : Bytes) :
    VerifyResult :=
  if ¬ pubkeyParseOk h pubkey_bytes then .trap
  else if ¬ sigParseOk h signature then .trap
  else if h.verifySig message signature pubkey_bytes then .ok
  else .invalid

/-- Outcome of `execute_message`: normal return, a `runtime::revert`, a
panic from an `unwrap()` (`trap`), or a failure of the downstream
`call_contract` into the receiver (`dispatchFailed`). -/
inductive ExecOutcome
  | ok
  | revert (e : Error)
  | trap
  | dispatchFailed
deriving DecidableEq, Repr

/-- Entry point `execute_message`: rebuild the canonical bytes with the
provided source chain and `CASPER_CHAIN_ID` as destination, run the
signature gate, then the replay guard (`AlreadyExecuted` when the digest
key maps to `Some(true)`), insert the digest, check the receiver is 32
bytes (`InvalidReceiver` otherwise), and dispatch to the receiver's
`on_call`.  The second component is the storage contents when the call
exits, aborts included. -/
def execute_message (h : Host) (s : GatewayState) (src_chain_id : Nat)
    (src_gateway receiver : Bytes) (nonce : Nat) (payload signature : Bytes) :
    ExecOutcome × GatewayState :=
  let message_bytes :=
    build_message_bytes src_chain_id CASPER_CHAIN_ID src_gateway receiver nonce payload
  match verify_relayer_signature h s.relayer_pubkey message_bytes signature with
  | .trap => (.trap, s)
  | .invalid => (.revert .InvalidSignature, s)
  | .ok =>
    let key := message_key h message_bytes
    if dictGet s.executed_messages key = some true then
      (.revert .AlreadyExecuted, s)
    else
      let s1 := { s with executed_messages := dictPut s.executed_messages key true }
      if receiver.length ≠ 32 then
        (.revert .InvalidReceiver, s1)
      else if h.dispatch src_chain_id src_gateway receiver payload then
        (.ok, s1)
      else
        (.dispatchFailed, s1)

/-- The one write `execute_message` performs: marking a message's digest
executed (`storage::dictionary_put(executed, &message_key, true)`). -/
def insertDigest (h : Host) (s : GatewayState) (message : Bytes) : GatewayState :=
  { s with executed_messages := dictPut s.executed_messages (message_key h message) true }

/-- Fold of `set_supported_chain` calls, the administrative setup phase. -/
def setChains (s : GatewayState) (admin : List (Nat × Bool)) : GatewayState :=
  admin.foldl (fun acc c => set_supported_chain acc c.1 c.2) s

/-- Sequential execution of `send_message` calls, collecting each call's
result and threading the storage. -/
def sendMany (h : Host) (caller : Bytes) :
    GatewayState → List (Nat × Bytes × Bytes) →
    List (Except Error Bytes) × GatewayState
  | s, [] => ([], s)
  | s, (dst, receiver, payload) :: rest =>
    let r := send_message h caller s dst receiver payload
    let rest' := sendMany h caller r.2 rest
    (r.1 :: rest'.1, rest'.2)

/-- Modelled from the spec: the encoding description of §4.1 rendered
literally — a chain id "as 4 bytes big-endian", the nonce "as 8 bytes
big-endian", written as the generic width-`w` big-endian digit string. -/
def specBE (w n : Nat) : Bytes :=
  (List.range w).map (fun i => n / 256 ^ (w - 1 - i) % 256)

/-- Modelled from the spec: §4.1's canonical encoding — concatenate, in
fixed order, `src_chain_id` as 4 bytes big-endian, `dst_chain_id` as
4 bytes big-endian, the raw sender bytes, the raw receiver bytes, `nonce`
as 8 bytes big-endian, then the raw payload bytes, with no length
prefixes. -/
def spec_encode (src_chain_id dst_chain_id : Nat)
    (src_gateway receiver : Bytes) (nonce : Nat) (payload : Bytes) : Bytes :=
  specBE 4 src_chain_id ++ specBE 4 dst_chain_id ++
    src_gateway ++ receiver ++ specBE 8 nonce ++ payload

/-- The two writes of a successful `send_message`: the nonce increment and
the archive entry stored under the message's digest key. -/
def archiveSend (h : Host) (s : GatewayState) (message : Bytes) : GatewayState :=
  { s with nonce := s.nonce + 1, messages := dictPut s.messages (message_key h message) message }

/-! ## Witness fixtures: concrete hosts and states for closed instances -/

/-- Host whose oracles all succeed and whose hash is the constant empty
string of bytes. -/
def hostA : Host :=
  ⟨fun _ => true, fun _ => true, fun _ _ _ => true, fun _ => [], fun _ _ _ _ => true⟩

/-- Host identical to `hostA` except signature verification always fails. -/
def hostB : Host :=
  ⟨fun _ => true, fun _ => true, fun _ _ _ => false, fun _ => [], fun _ _ _ _ => true⟩

/-- Host identical to `hostA` except the dispatcher's downstream call
always fails. -/
def hostC : Host :=
  ⟨fun _ => true, fun _ => true, fun _ _ _ => true, fun _ => [], fun _ _ _ _ => false⟩

/-- A gateway state holding a 33-byte (SEC1-compressed-length) relayer key. -/
def stateA : GatewayState :=
  ⟨0, List.replicate 33 0, [], [], []⟩

/-- The state produced by a successful `install` of a 64-byte key. -/
def state64 : GatewayState :=
  ⟨0, List.replicate 64 0, [], [], []⟩

/-! ## Helper lemmas -/

/-- Inversion of the installer: success forces a 64-byte key and yields the
fresh state. -/
theorem install_ok_iff (pk : Bytes) (s : GatewayState) :
    install pk = .ok s ↔
      pk.length = 64 ∧
      s = { nonce := 0, relayer_pubkey := pk, supported_chains := [],
            executed_messages := [], messages := [] } := by
  unfold install
  by_cases h : pk.length = 64 <;> simp [h, eq_comm]

/-- A freshly written dictionary entry is what `dictGet` returns. -/
theorem dictGet_dictPut_self {α β : Type} [DecidableEq α]
    (d : List (α × β)) (k : α) (v : β) :
    dictGet (dictPut d k v) k = some v := by
  simp [dictGet, dictPut, List.find?]

/-! ## Claims -/

/-- C9: installation fails in its entirety whenever the supplied relayer
public key's byte length differs from the 64 bytes the gateway contract
expects, and a key of the valid length yields the operational (fresh)
gateway state. -/
theorem C9_install_key_length (pk : Bytes) :
    (pk.length ≠ 64 → install pk = .error .InvalidSignature) ∧
    (pk.length = 64 →
      install pk = .ok { nonce := 0, relayer_pubkey := pk, supported_chains := [],
                         executed_messages := [], messages := [] }) := by
  constructor <;> intro h <;> simp [install, h]

/-- Witness for C9 at a 3-byte key (rejected) and a 64-byte key (accepted). -/
theorem C9_install_key_length_witness :
    install (List.replicate 3 0) = .error .InvalidSignature ∧
    install (List.replicate 64 0)
      = .ok { nonce := 0, relayer_pubkey := List.replicate 64 0, supported_chains := [],
              executed_messages := [], messages := [] } :=
  ⟨(C9_install_key_length (List.replicate 3 0)).1 (by decide),
   (C9_install_key_length (List.replicate 64 0)).2 (by decide)⟩

/-- C5: `send_message` to a destination chain that is absent from
`supported_chains` or whose stored flag is `false` fails with
`UnsupportedChain` and returns the state (nonce counter and message
archive included) unchanged; a chain marked supported and then
unsupported is likewise rejected. -/
theorem C5_unsupported_chain (h : Host) (caller : Bytes) (s : GatewayState)
    (dst : Nat) (receiver payload : Bytes)
    (hflag : dictGet s.supported_chains (toString dst) = none ∨
             dictGet s.supported_chains (toString dst) = some false) :
    send_message h caller s dst receiver payload = (.error .UnsupportedChain, s) ∧
    (∀ s0 : GatewayState,
      send_message h caller (set_supported_chain (set_supported_chain s0 dst true) dst false)
          dst receiver payload
        = (.error .UnsupportedChain,
           set_supported_chain (set_supported_chain s0 dst true) dst false)) := by
  constructor
  · rcases hflag with h1 | h1 <;> simp [send_message, h1]
  · intro s0
    have hget : dictGet (set_supported_chain (set_supported_chain s0 dst true) dst
          false).supported_chains (toString dst) = some false := by
      simp [set_supported_chain, dictGet_dictPut_self]
    simp [send_message, hget]

/-- Witness for C5: a fresh gateway rejects chain 5, which was never marked. -/
theorem C5_unsupported_chain_witness :
    send_message hostA [] stateA 5 (List.replicate 32 0) [1]
      = (.error .UnsupportedChain, stateA) :=
  (C5_unsupported_chain hostA [] stateA 5 (List.replicate 32 0) [1] (Or.inl rfl)).1

/-- C2: when the stored key and the presented signature both parse but
verification fails, `execute_message` reverts with `InvalidSignature` and
the state — the `executed_messages` replay set included — is exactly the
input state: the gate runs strictly before the replay-guard lookup and
insertion. -/
theorem C2_invalid_signature_no_mutation (h : Host) (s : GatewayState) (src : Nat)
    (src_gateway receiver : Bytes) (nonce : Nat) (payload signature : Bytes)
    (hpk : pubkeyParseOk h s.relayer_pubkey = true)
    (hsg : sigParseOk h signature = true)
    (hv : h.verifySig (build_message_bytes src CASPER_CHAIN_ID src_gateway receiver nonce payload)
            signature s.relayer_pubkey = false) :
    execute_message h s src src_gateway receiver nonce payload signature
      = (.revert .InvalidSignature, s) := by
  simp [execute_message, verify_relayer_signature, hpk, hsg, hv]

/-- Witness for C2 with a host whose verifier rejects everything. -/
theorem C2_invalid_signature_no_mutation_witness :
    execute_message hostB stateA 1 [] (List.replicate 32 0) 0 [] (List.replicate 64 0)
      = (.revert .InvalidSignature, stateA) :=
  C2_invalid_signature_no_mutation hostB stateA 1 [] (List.replicate 32 0) 0 []
    (List.replicate 64 0) (by decide) (by decide) rfl

/-- C3: a gateway produced by the installer stores a 64-byte key, yet the
secp256k1 conversion inside `verify_relayer_signature` accepts only SEC1
key encodings, so on such a gateway every `execute_message` call aborts at
the `unwrap` — a panic, not the `InvalidSignature` revert — before any
signature check or state change; and with a parseable stored key, a
signature argument whose length is not 64 likewise aborts at the `unwrap`
rather than reverting with `InvalidSignature`. -/
theorem C3_unwrap_aborts (pk : Bytes) (s : GatewayState) (h : Host) (src : Nat)
    (src_gateway receiver : Bytes) (nonce : Nat) (payload signature : Bytes)
    (hinst : install pk = .ok s) :
    execute_message h s src src_gateway receiver nonce payload signature = (.trap, s) ∧
    (∀ (s2 : GatewayState) (sig2 : Bytes),
      pubkeyParseOk h s2.relayer_pubkey = true → sig2.length ≠ 64 →
      execute_message h s2 src src_gateway receiver nonce payload sig2 = (.trap, s2)) := by
  obtain ⟨hlen, hs⟩ := (install_ok_iff pk s).1 hinst
  constructor
  · have hbad : pubkeyParseOk h s.relayer_pubkey = false := by
      simp [pubkeyParseOk, hs, hlen]
    simp [execute_message, verify_relayer_signature, hbad]
  · intro s2 sig2 hpk hlen2
    have hbad : sigParseOk h sig2 = false := by
      simp [sigParseOk, hlen2]
    simp [execute_message, verify_relayer_signature, hpk, hbad]

/-- Witness for C3: the installed 64-byte-key gateway traps on execution. -/
theorem C3_unwrap_aborts_witness :
    execute_message hostA state64 1 [] (List.replicate 32 0) 0 [] (List.replicate 64 0)
      = (.trap, state64) :=
  (C3_unwrap_aborts (List.replicate 64 0) state64 hostA 1 [] (List.replicate 32 0) 0 []
    (List.replicate 64 0) rfl).1

/-- Any `execute_message` call that ends in the unwrap trap, the
`InvalidSignature` revert or the `AlreadyExecuted` revert exits with the
storage exactly as it found it: those aborts all happen before the one
write of the call, the replay-set insertion. -/
theorem exec_abort_before_insert (h : Host) (s : GatewayState) (src : Nat)
    (gw recv : Bytes) (n : Nat) (pl sig : Bytes)
    (hout : (execute_message h s src gw recv n pl sig).1 = .trap ∨
            (execute_message h s src gw recv n pl sig).1 = .revert .InvalidSignature ∨
            (execute_message h s src gw recv n pl sig).1 = .revert .AlreadyExecuted) :
    (execute_message h s src gw recv n pl sig).2 = s := by
  cases hv : verify_relayer_signature h s.relayer_pubkey
      (build_message_bytes src CASPER_CHAIN_ID gw recv n pl) sig with
  | trap => simp [execute_message, hv]
  | invalid => simp [execute_message, hv]
  | ok =>
    by_cases hseen : dictGet s.executed_messages
        (message_key h (build_message_bytes src CASPER_CHAIN_ID gw recv n pl)) = some true
    · simp [execute_message, hv, hseen]
    · exfalso
      simp [execute_message, hv, hseen] at hout
      by_cases hlen : recv.length = 32
      · by_cases hd : h.dispatch src gw recv pl = true <;>
          simp [hlen, hd] at hout
      · simp [hlen] at hout

/-- C7: with a passing signature and an unseen digest, a receiver of the
wrong length makes `execute_message` revert with `InvalidReceiver`, but
only after the digest has been inserted into `executed_messages`: the
exit state carries the insertion, permanently consuming the replay slot. -/
theorem C7_invalid_receiver_consumes_slot (h : Host) (s : GatewayState) (src : Nat)
    (src_gateway receiver : Bytes) (nonce : Nat) (payload signature : Bytes)
    (hver : verify_relayer_signature h s.relayer_pubkey
        (build_message_bytes src CASPER_CHAIN_ID src_gateway receiver nonce payload)
        signature = .ok)
    (hfresh : dictGet s.executed_messages
        (message_key h (build_message_bytes src CASPER_CHAIN_ID src_gateway receiver nonce payload))
        ≠ some true)
    (hlen : receiver.length ≠ 32) :
    execute_message h s src src_gateway receiver nonce payload signature
      = (.revert .InvalidReceiver,
         insertDigest h s (build_message_bytes src CASPER_CHAIN_ID src_gateway receiver nonce payload)) ∧
    dictGet (execute_message h s src src_gateway receiver nonce payload signature).2.executed_messages
        (message_key h (build_message_bytes src CASPER_CHAIN_ID src_gateway receiver nonce payload))
      = some true := by
  have h1 : execute_message h s src src_gateway receiver nonce payload signature
      = (.revert .InvalidReceiver,
         insertDigest h s
           (build_message_bytes src CASPER_CHAIN_ID src_gateway receiver nonce payload)) := by
    simp [execute_message, insertDigest, hver, hfresh, hlen]
  refine ⟨h1, ?_⟩
  rw [h1]
  simp [insertDigest, dictGet_dictPut_self]

/-- Witness for C7 at an empty (0-byte) receiver. -/
theorem C7_invalid_receiver_consumes_slot_witness :
    execute_message hostA stateA 1 [] [] 0 [] (List.replicate 64 0)
      = (.revert .InvalidReceiver,
         insertDigest hostA stateA (build_message_bytes 1 CASPER_CHAIN_ID [] [] 0 [])) :=
  (C7_invalid_receiver_consumes_slot hostA stateA 1 [] [] 0 [] (List.replicate 64 0)
    rfl (by decide) (by decide)).1

/-- C8: once the signature gate and the replay guard have passed, the
digest is inserted before the dispatcher's downstream call, so a failure
inside dispatch exits with the message already marked executed; every
abort that precedes the insertion (the unwrap trap, `InvalidSignature`,
`AlreadyExecuted`) instead exits with the storage untouched. -/
theorem C8_insert_survives_dispatch_failure (h : Host) (s : GatewayState) (src : Nat)
    (src_gateway receiver : Bytes) (nonce : Nat) (payload signature : Bytes)
    (hver : verify_relayer_signature h s.relayer_pubkey
        (build_message_bytes src CASPER_CHAIN_ID src_gateway receiver nonce payload)
        signature = .ok)
    (hfresh : dictGet s.executed_messages
        (message_key h (build_message_bytes src CASPER_CHAIN_ID src_gateway receiver nonce payload))
        ≠ some true)
    (hlen : receiver.length = 32)
    (hdisp : h.dispatch src src_gateway receiver payload = false) :
    execute_message h s src src_gateway receiver nonce payload signature
      = (.dispatchFailed,
         insertDigest h s (build_message_bytes src CASPER_CHAIN_ID src_gateway receiver nonce payload)) ∧
    dictGet (execute_message h s src src_gateway receiver nonce payload signature).2.executed_messages
        (message_key h (build_message_bytes src CASPER_CHAIN_ID src_gateway receiver nonce payload))
      = some true ∧
    (∀ (s2 : GatewayState) (src2 : Nat) (gw2 recv2 : Bytes) (n2 : Nat) (pl2 sig2 : Bytes),
      ((execute_message h s2 src2 gw2 recv2 n2 pl2 sig2).1 = .trap ∨
       (execute_message h s2 src2 gw2 recv2 n2 pl2 sig2).1 = .revert .InvalidSignature ∨
       (execute_message h s2 src2 gw2 recv2 n2 pl2 sig2).1 = .revert .AlreadyExecuted) →
      (execute_message h s2 src2 gw2 recv2 n2 pl2 sig2).2 = s2) := by
  have h1 : execute_message h s src src_gateway receiver nonce payload signature
      = (.dispatchFailed,
         insertDigest h s
           (build_message_bytes src CASPER_CHAIN_ID src_gateway receiver nonce payload)) := by
    simp [execute_message, insertDigest, hver, hfresh, hlen, hdisp]
  refine ⟨h1, ?_, ?_⟩
  · rw [h1]
    simp [insertDigest, dictGet_dictPut_self]
  · intro s2 src2 gw2 recv2 n2 pl2 sig2 hout
    exact exec_abort_before_insert h s2 src2 gw2 recv2 n2 pl2 sig2 hout

/-- Witness for C8 with a host whose dispatcher always fails. -/
theorem C8_insert_survives_dispatch_failure_witness :
    execute_message hostC stateA 1 [] (List.replicate 32 0) 0 [] (List.replicate 64 0)
      = (.dispatchFailed,
         insertDigest hostC stateA
           (build_message_bytes 1 CASPER_CHAIN_ID [] (List.replicate 32 0) 0 [])) :=
  (C8_insert_survives_dispatch_failure hostC stateA 1 [] (List.replicate 32 0) 0 []
    (List.replicate 64 0) rfl (by decide) (by decide) rfl).1

/-- C1: with a passing signature gate, an unseen digest, a 32-byte
receiver and a succeeding dispatch, the first `execute_message` call
succeeds; repeating it with identical arguments from the resulting state
reverts with `AlreadyExecuted` and mutates nothing; and in general, from
any state with the same stored relayer key whose replay set already
contains the message's digest, the call reverts with `AlreadyExecuted`
and exits with the state unchanged. -/
theorem C1_replay_guard (h : Host) (s : GatewayState) (src : Nat)
    (src_gateway receiver : Bytes) (nonce : Nat) (payload signature : Bytes)
    (hver : verify_relayer_signature h s.relayer_pubkey
        (build_message_bytes src CASPER_CHAIN_ID src_gateway receiver nonce payload)
        signature = .ok)
    (hfresh : dictGet s.executed_messages
        (message_key h (build_message_bytes src CASPER_CHAIN_ID src_gateway receiver nonce payload))
        ≠ some true)
    (hlen : receiver.length = 32)
    (hdisp : h.dispatch src src_gateway receiver payload = true) :
    (execute_message h s src src_gateway receiver nonce payload signature).1 = .ok ∧
    execute_message h (execute_message h s src src_gateway receiver nonce payload signature).2
        src src_gateway receiver nonce payload signature
      = (.revert .AlreadyExecuted,
         (execute_message h s src src_gateway receiver nonce payload signature).2) ∧
    (∀ s2 : GatewayState, s2.relayer_pubkey = s.relayer_pubkey →
      dictGet s2.executed_messages
          (message_key h (build_message_bytes src CASPER_CHAIN_ID src_gateway receiver nonce payload))
        = some true →
      execute_message h s2 src src_gateway receiver nonce payload signature
        = (.revert .AlreadyExecuted, s2)) := by
  have hgeneral : ∀ s2 : GatewayState, s2.relayer_pubkey = s.relayer_pubkey →
      dictGet s2.executed_messages
          (message_key h (build_message_bytes src CASPER_CHAIN_ID src_gateway receiver nonce payload))
        = some true →
      execute_message h s2 src src_gateway receiver nonce payload signature
        = (.revert .AlreadyExecuted, s2) := by
    intro s2 hpk hseen
    have hver2 : verify_relayer_signature h s2.relayer_pubkey
        (build_message_bytes src CASPER_CHAIN_ID src_gateway receiver nonce payload)
        signature = .ok := by rw [hpk]; exact hver
    simp [execute_message, hver2, hseen]
  have h1 : execute_message h s src src_gateway receiver nonce payload signature
      = (.ok,
         insertDigest h s
           (build_message_bytes src CASPER_CHAIN_ID src_gateway receiver nonce payload)) := by
    simp [execute_message, insertDigest, hver, hfresh, hlen, hdisp]
  refine ⟨by rw [h1], ?_, hgeneral⟩
  rw [h1]
  exact hgeneral _ rfl (dictGet_dictPut_self _ _ _)

/-- Witness for C1: a concrete double submission, succeeding then
rejected as already executed. -/
theorem C1_replay_guard_witness :
    (execute_message hostA stateA 1 [] (List.replicate 32 0) 0 [] (List.replicate 64 0)).1
      = .ok ∧
    execute_message hostA
        (execute_message hostA stateA 1 [] (List.replicate 32 0) 0 [] (List.replicate 64 0)).2
        1 [] (List.replicate 32 0) 0 [] (List.replicate 64 0)
      = (.revert .AlreadyExecuted,
         (execute_message hostA stateA 1 [] (List.replicate 32 0) 0 [] (List.replicate 64 0)).2) := by
  have := C1_replay_guard hostA stateA 1 [] (List.replicate 32 0) 0 [] (List.replicate 64 0)
    rfl (by decide) (by decide) rfl
  exact ⟨this.1, this.2.1⟩

/-- Behavior of `send_message` on a supported destination: return the
canonical bytes built with the pre-increment nonce, increment the counter,
archive the bytes. -/
theorem send_message_ok (h : Host) (caller : Bytes) (s : GatewayState)
    (dst : Nat) (receiver payload : Bytes)
    (hsup : dictGet s.supported_chains (toString dst) = some true) :
    send_message h caller s dst receiver payload
      = (.ok (build_message_bytes CASPER_CHAIN_ID dst caller receiver s.nonce payload),
         archiveSend h s
           (build_message_bytes CASPER_CHAIN_ID dst caller receiver s.nonce payload)) := by
  simp [send_message, archiveSend, hsup]

/-- Administrative setup touches only `supported_chains`: the counter is
preserved across any `setChains` fold. -/
theorem setChains_nonce :
    ∀ (admin : List (Nat × Bool)) (s : GatewayState), (setChains s admin).nonce = s.nonce
  | [], _ => rfl
  | c :: rest, s => by
    have h := setChains_nonce rest (set_supported_chain s c.1 c.2)
    simpa [setChains, set_supported_chain] using h

/-- Characterization of a run of successful `send_message` calls: the
counter advances by the number of calls, the allow-list is untouched, and
the k-th call returns the canonical bytes carrying nonce `s.nonce + k`. -/
theorem sendMany_spec (h : Host) (caller : Bytes) (calls : List (Nat × Bytes × Bytes)) :
    ∀ s : GatewayState,
      (∀ c ∈ calls, dictGet s.supported_chains (toString c.1) = some true) →
      (sendMany h caller s calls).2.nonce = s.nonce + calls.length ∧
      (sendMany h caller s calls).2.supported_chains = s.supported_chains ∧
      (∀ (k : Nat) (c : Nat × Bytes × Bytes), calls.get? k = some c →
        (sendMany h caller s calls).1.get? k
          = some (.ok (build_message_bytes CASPER_CHAIN_ID c.1 caller c.2.1 (s.nonce + k) c.2.2))) := by
  induction calls with
  | nil =>
    intro s _
    simp [sendMany]
  | cons c rest ih =>
    intro s hsup
    obtain ⟨dst, receiver, payload⟩ := c
    have hhead : dictGet s.supported_chains (toString dst) = some true :=
      hsup (dst, receiver, payload) (by simp)
    have hsend := send_message_ok h caller s dst receiver payload hhead
    have hrest : ∀ c ∈ rest,
        dictGet (archiveSend h s
            (build_message_bytes CASPER_CHAIN_ID dst caller receiver s.nonce
              payload)).supported_chains (toString c.1) = some true := by
      intro c hc
      simpa [archiveSend] using hsup c (List.mem_cons_of_mem _ hc)
    obtain ⟨ih1, ih2, ih3⟩ := ih _ hrest
    refine ⟨?_, ?_, ?_⟩
    · simp only [sendMany, hsend]
      rw [ih1]
      simp [archiveSend]
      omega
    · simp only [sendMany, hsend]
      rw [ih2]
      simp [archiveSend]
    · intro k c hk
      cases k with
      | zero =>
        simp only [List.get?_cons_zero, Option.some.injEq] at hk
        subst hk
        simp [sendMany, hsend]
      | succ k =>
        simp only [List.get?_cons_succ] at hk
        have h3 := ih3 k c hk
        simp only [sendMany, hsend, List.get?_cons_succ]
        rw [h3]
        simp [archiveSend]
        congr 1
        omega

/-- C4: from a freshly installed gateway (after any administrative
allow-listing), a sequence of successful `send_message` calls assigns the
k-th call (zero-based) the nonce k embedded in its returned canonical
bytes — the counter value before that call's increment — and leaves the
stored counter equal to the number of calls; a call rejected with
`UnsupportedChain` performs no increment (the state is returned
unchanged). -/
theorem C4_nonce_sequencing (pk caller : Bytes) (h : Host) (s0 s : GatewayState)
    (admin : List (Nat × Bool)) (calls : List (Nat × Bytes × Bytes))
    (hinst : install pk = .ok s0)
    (hs : s = setChains s0 admin)
    (hsup : ∀ c ∈ calls, dictGet s.supported_chains (toString c.1) = some true) :
    (sendMany h caller s calls).2.nonce = calls.length ∧
    (∀ (k : Nat) (c : Nat × Bytes × Bytes), calls.get? k = some c →
      (sendMany h caller s calls).1.get? k
        = some (.ok (build_message_bytes CASPER_CHAIN_ID c.1 caller c.2.1 k c.2.2))) ∧
    (∀ (dst : Nat) (receiver payload : Bytes),
      dictGet s.supported_chains (toString dst) ≠ some true →
      send_message h caller s dst receiver payload = (.error .UnsupportedChain, s)) := by
  have hnonce0 : s.nonce = 0 := by
    obtain ⟨_, hs0⟩ := (install_ok_iff pk s0).1 hinst
    rw [hs, setChains_nonce, hs0]
  obtain ⟨h1, _, h3⟩ := sendMany_spec h caller calls s hsup
  refine ⟨by rw [h1, hnonce0, Nat.zero_add], ?_, ?_⟩
  · intro k c hk
    have := h3 k c hk
    rwa [hnonce0, Nat.zero_add] at this
  · intro dst receiver payload hns
    simp [send_message, hns]

/-- Witness for C4: two sends to the allow-listed chain 1 bring the
counter to 2, and a send to the unlisted chain 7 is rejected without
mutation. -/
theorem C4_nonce_sequencing_witness :
    (sendMany hostA [] (setChains state64 [(1, true)])
        [(1, List.replicate 32 0, [1]), (1, List.replicate 32 0, [2])]).2.nonce = 2 ∧
    send_message hostA [] (setChains state64 [(1, true)]) 7 [] []
      = (.error .UnsupportedChain, setChains state64 [(1, true)]) := by
  have h := C4_nonce_sequencing (List.replicate 64 0) [] hostA state64
    (setChains state64 [(1, true)]) [(1, true)]
    [(1, List.replicate 32 0, [1]), (1, List.replicate 32 0, [2])]
    rfl rfl (by decide)
  exact ⟨h.1, h.2.2 7 [] [] (by decide)⟩

/-- The spec's "4 bytes big-endian" agrees with `u32::to_be_bytes`. -/
theorem specBE_four (n : Nat) : specBE 4 n = u32_to_be_bytes n := by
  have h4 : List.range 4 = [0, 1, 2, 3] := rfl
  simp [specBE, u32_to_be_bytes, h4]

/-- The spec's "8 bytes big-endian" agrees with `u64::to_be_bytes`. -/
theorem specBE_eight (n : Nat) : specBE 8 n = u64_to_be_bytes n := by
  have h8 : List.range 8 = [0, 1, 2, 3, 4, 5, 6, 7] := rfl
  simp [specBE, u64_to_be_bytes, h8]

/-- C6: the canonical encoding is exactly the §4.1 concatenation — 4-byte
big-endian source chain, 4-byte big-endian destination chain, raw sender,
raw receiver, 8-byte big-endian nonce, raw payload, with no delimiters —
as a pure function of the fields; and on a freshly installed gateway with
chain 1 allow-listed, `send_message(1, 32 zero bytes, [1])` returns
`be32(3) ++ be32(1) ++ caller ++ 32 zero bytes ++ be64(0) ++ [1]` and
leaves the stored nonce at 1. -/
theorem C6_canonical_encoding (pk caller : Bytes) (h : Host) (s0 : GatewayState)
    (hinst : install pk = .ok s0) :
    (∀ (src dst : Nat) (gw recv : Bytes) (n : Nat) (pl : Bytes),
      build_message_bytes src dst gw recv n pl = spec_encode src dst gw recv n pl) ∧
    (send_message h caller (set_supported_chain s0 1 true) 1 (List.replicate 32 0) [1]).1
      = .ok (specBE 4 3 ++ specBE 4 1 ++ caller ++ List.replicate 32 0 ++ specBE 8 0 ++ [1]) ∧
    (send_message h caller (set_supported_chain s0 1 true) 1 (List.replicate 32 0) [1]).2.nonce
      = 1 := by
  obtain ⟨_, hs0⟩ := (install_ok_iff pk s0).1 hinst
  have hget : dictGet (set_supported_chain s0 1 true).supported_chains (toString 1)
      = some true := by
    simp [set_supported_chain, dictGet_dictPut_self]
  have hsend := send_message_ok h caller (set_supported_chain s0 1 true) 1
    (List.replicate 32 0) [1] hget
  have hnonce : (set_supported_chain s0 1 true).nonce = 0 := by
    simp [set_supported_chain, hs0]
  refine ⟨?_, ?_, ?_⟩
  · intro src dst gw recv n pl
    simp [build_message_bytes, spec_encode, specBE_four, specBE_eight]
  · rw [hsend, hnonce]
    simp [build_message_bytes, CASPER_CHAIN_ID, specBE_four, specBE_eight]
  · rw [hsend]
    simp [archiveSend, hnonce]

/-- Witness for C6: the concrete scenario of §8 on the installed state. -/
theorem C6_canonical_encoding_witness :
    (send_message hostA [5] (set_supported_chain state64 1 true) 1 (List.replicate 32 0) [1]).1
      = .ok (specBE 4 3 ++ specBE 4 1 ++ [5] ++ List.replicate 32 0 ++ specBE 8 0 ++ [1]) ∧
    (send_message hostA [5] (set_supported_chain state64 1 true) 1 (List.replicate 32 0) [1]).2.nonce
      = 1 := by
  have h := C6_canonical_encoding (List.replicate 64 0) [5] hostA state64 rfl
  exact ⟨h.2.1, h.2.2⟩

/-- Recovering a `u32` from its big-endian bytes: the encoding is
injective below `2 ^ 32`. -/
theorem u32_be_inj (m n : Nat) (hm : m < 2 ^ 32) (hn : n < 2 ^ 32)
    (h : u32_to_be_bytes m = u32_to_be_bytes n) : m = n := by
  simp only [u32_to_be_bytes, List.cons.injEq, and_true] at h
  norm_num at h hm hn
  omega

/-- Recovering a `u64` from its big-endian bytes: the encoding is
injective below `2 ^ 64`. -/
theorem u64_be_inj (m n : Nat) (hm : m < 2 ^ 64) (hn : n < 2 ^ 64)
    (h : u64_to_be_bytes m = u64_to_be_bytes n) : m = n := by
  simp only [u64_to_be_bytes, List.cons.injEq, and_true] at h
  norm_num at h hm hn
  omega

/-- C10 counterexample: the encoding inserts no length prefixes, so two
messages that differ in their variable-length fields can collide — here a
1-byte sender with an empty receiver against an empty sender with a
1-byte receiver, all other fields equal. -/
theorem C10_collision_counterexample :
    build_message_bytes 0 0 [7] [] 0 [] = build_message_bytes 0 0 [] [7] 0 [] ∧
    ([7] : Bytes) ≠ ([] : Bytes) := by
  decide

/-- C10 as amended: the canonical encoding is injective on messages whose
sender byte strings have equal lengths and whose receiver byte strings
have equal lengths (with chain ids in `u32` range and nonces in `u64`
range) — equal encodings then force every field, payload included, to be
equal. -/
theorem C10_injective_on_aligned_fields (src1 dst1 : Nat) (gw1 recv1 : Bytes)
    (n1 : Nat) (pl1 : Bytes) (src2 dst2 : Nat) (gw2 recv2 : Bytes) (n2 : Nat) (pl2 : Bytes)
    (hsrc1 : src1 < 2 ^ 32) (hsrc2 : src2 < 2 ^ 32)
    (hdst1 : dst1 < 2 ^ 32) (hdst2 : dst2 < 2 ^ 32)
    (hn1 : n1 < 2 ^ 64) (hn2 : n2 < 2 ^ 64)
    (hgw : gw1.length = gw2.length) (hrecv : recv1.length = recv2.length)
    (heq : build_message_bytes src1 dst1 gw1 recv1 n1 pl1
         = build_message_bytes src2 dst2 gw2 recv2 n2 pl2) :
    src1 = src2 ∧ dst1 = dst2 ∧ gw1 = gw2 ∧ recv1 = recv2 ∧ n1 = n2 ∧ pl1 = pl2 := by
  unfold build_message_bytes at heq
  simp only [List.append_assoc] at heq
  obtain ⟨h1, heq⟩ := List.append_inj heq (by simp [u32_to_be_bytes])
  obtain ⟨h2, heq⟩ := List.append_inj heq (by simp [u32_to_be_bytes])
  obtain ⟨h3, heq⟩ := List.append_inj heq hgw
  obtain ⟨h4, heq⟩ := List.append_inj heq hrecv
  obtain ⟨h5, h6⟩ := List.append_inj heq (by simp [u64_to_be_bytes])
  exact ⟨u32_be_inj _ _ hsrc1 hsrc2 h1, u32_be_inj _ _ hdst1 hdst2 h2, h3, h4,
    u64_be_inj _ _ hn1 hn2 h5, h6⟩

/-- Witness for the amended C10 at concrete fields. -/
theorem C10_injective_on_aligned_fields_witness :
    (1 : Nat) = 1 ∧ (2 : Nat) = 2 ∧ ([3] : Bytes) = [3] ∧ ([4] : Bytes) = [4] ∧
    (5 : Nat) = 5 ∧ ([6] : Bytes) = [6] :=
  C10_injective_on_aligned_fields 1 2 [3] [4] 5 [6] 1 2 [3] [4] 5 [6]
    (by decide) (by decide) (by decide) (by decide) (by decide) (by decide) rfl rfl rfl

end KnotX
